import Mathlib

/-!
Shallow embedding of the game-state engine of `snake_game.py`
(`snake_game_learn.py` is a comment-annotated copy with identical logic).

Positions are integer pairs `(row, column)`.  The curses screen is modelled
only through the pieces of state the engine reads or writes: the pressed key
is passed to `handle_input` as an argument, and the `stdscr.timeout(...)`
value is carried as a `timeout` field of the state.  `random.randint(lo, hi)`
is modelled by reducing a raw entropy value onto the inclusive range
`[lo, hi]`; the `while True` rejection loop of `generate_food` consumes one
entropy pair per iteration from a stream and is given a fuel bound standing
for the number of iterations a particular run executes, returning `none`
when the fuel runs out (a run that has not yet found a free cell) or when
the sampling range is empty (Python would raise `ValueError`).
-/

set_option autoImplicit false

namespace Snake

/-- A grid position `(row, column)`, the Python tuple `(y, x)`. -/
abbrev Pos := Int × Int

/-- The `Direction` enum of `snake_game.py`. -/
inductive Direction where
  | UP
  | DOWN
  | LEFT
  | RIGHT
deriving DecidableEq

/-- The `.value` of each `Direction` member: the `(dy, dx)` movement delta. -/
def Direction.value : Direction → Int × Int
  | Direction.UP => (-1, 0)
  | Direction.DOWN => (1, 0)
  | Direction.LEFT => (0, -1)
  | Direction.RIGHT => (0, 1)

/-- The 180-degree reversal of a direction (used only in statements; the code
spells the four cases out in `handle_input`). -/
def Direction.opposite : Direction → Direction
  | Direction.UP => Direction.DOWN
  | Direction.DOWN => Direction.UP
  | Direction.LEFT => Direction.RIGHT
  | Direction.RIGHT => Direction.LEFT

/-- The mutable state of `SnakeGame`: the fields assigned in `__init__` /
`reset_game` / `update_snake`, plus `timeout` for the `stdscr.timeout(...)`
value the engine writes (set to `100` in `__init__`). -/
structure GameState where
  snake : List Pos
  direction : Direction
  food : Pos
  score : Nat
  high_score : Nat
  game_over : Bool
  game_height : Int
  game_width : Int
  timeout : Nat
deriving DecidableEq

/-- Model of `random.randint(lo, hi)`: raw entropy `r` reduced onto the
inclusive range `[lo, hi]`.  Callers guard `lo ≤ hi`; Python raises
`ValueError` otherwise. -/
def randint (lo hi : Int) (r : Nat) : Int :=
  lo + ((r % (hi - lo + 1).toNat : Nat) : Int)

/-- The candidate cell one iteration of the `generate_food` loop draws from a
raw entropy pair: `(random.randint(1, game_height - 1), random.randint(1,
game_width - 1))`. -/
def foodCandidate (gh gw : Int) (r : Nat × Nat) : Pos :=
  (randint 1 (gh - 1) r.1, randint 1 (gw - 1) r.2)

/-- The `while True` rejection loop of `generate_food`, tried from entropy
index `i` with the given fuel. -/
def genFoodAux (gh gw : Int) (snake : List Pos) (oracle : Nat → Nat × Nat) :
    Nat → Nat → Option Pos
  | _, 0 => none
  | i, fuel + 1 =>
    if gh - 1 < 1 ∨ gw - 1 < 1 then none
    else if foodCandidate gh gw (oracle i) ∈ snake then
      genFoodAux gh gw snake oracle (i + 1) fuel
    else some (foodCandidate gh gw (oracle i))

/-- `generate_food`: rejection-sample a cell of
`[1, game_height-1] × [1, game_width-1]` not occupied by the snake. -/
def generate_food (gh gw : Int) (snake : List Pos) (oracle : Nat → Nat × Nat)
    (fuel : Nat) : Option Pos :=
  genFoodAux gh gw snake oracle 0 fuel

/-- The 3-segment snake `reset_game` builds, centered at
`start_y = game_height // 2`, `start_x = game_width // 2` (Python's floor
division `//` is `Int.fdiv`). -/
def resetSnake (s : GameState) : List Pos :=
  [(Int.fdiv s.game_height 2, Int.fdiv s.game_width 2),
   (Int.fdiv s.game_height 2, Int.fdiv s.game_width 2 - 1),
   (Int.fdiv s.game_height 2, Int.fdiv s.game_width 2 - 2)]

/-- `reset_game`: re-center a 3-segment snake, direction `RIGHT`, fresh food,
`game_over = False`, `score = 0`.  `high_score`, the grid bounds and the
curses timeout are untouched. -/
def reset_game (s : GameState) (oracle : Nat → Nat × Nat) (fuel : Nat) :
    Option GameState :=
  match generate_food s.game_height s.game_width (resetSnake s) oracle fuel with
  | none => none
  | some f =>
    some { s with snake := resetSnake s, direction := Direction.RIGHT, food := f,
                  game_over := false, score := 0 }

/-- `curses.KEY_UP` (ncurses key code). -/
def KEY_UP : Int := 259

/-- `curses.KEY_DOWN` (ncurses key code). -/
def KEY_DOWN : Int := 258

/-- `curses.KEY_LEFT` (ncurses key code). -/
def KEY_LEFT : Int := 260

/-- `curses.KEY_RIGHT` (ncurses key code). -/
def KEY_RIGHT : Int := 261

/-- `handle_input`, with the key read from `stdscr.getch()` passed in as an
argument.  The key codes are `ord` values: q=113 Q=81 r=114 R=82 w=119 W=87
s=115 S=83 a=97 A=65 d=100 D=68, plus the `curses.KEY_*` arrows.  Returns
the continue flag (`False` quits) with the updated state. -/
def handle_input (s : GameState) (key : Int) (oracle : Nat → Nat × Nat)
    (fuel : Nat) : Option (Bool × GameState) :=
  if key = 113 ∨ key = 81 then
    some (false, s)
  else if key = 114 ∨ key = 82 then
    if s.game_over then
      match reset_game s oracle fuel with
      | none => none
      | some s2 => some (true, s2)
    else some (true, s)
  else if s.game_over = false then
    if key = KEY_UP ∨ key = 119 ∨ key = 87 then
      some (true, if s.direction ≠ Direction.DOWN
                  then { s with direction := Direction.UP } else s)
    else if key = KEY_DOWN ∨ key = 115 ∨ key = 83 then
      some (true, if s.direction ≠ Direction.UP
                  then { s with direction := Direction.DOWN } else s)
    else if key = KEY_LEFT ∨ key = 97 ∨ key = 65 then
      some (true, if s.direction ≠ Direction.RIGHT
                  then { s with direction := Direction.LEFT } else s)
    else if key = KEY_RIGHT ∨ key = 100 ∨ key = 68 then
      some (true, if s.direction ≠ Direction.LEFT
                  then { s with direction := Direction.RIGHT } else s)
    else some (true, s)
  else some (true, s)

/-- The new head cell `update_snake` computes: `head + delta(direction)`. -/
def nextHead (s : GameState) : Pos :=
  (s.snake.headI.1 + s.direction.value.1, s.snake.headI.2 + s.direction.value.2)

/-- The collision outcome of `update_snake`: `game_over = True` and the
`if self.score > self.high_score` high-score update. -/
def endGame (s : GameState) : GameState :=
  { s with game_over := true,
           high_score := if s.high_score < s.score then s.score
                         else s.high_score }

/-- The body of `update_snake` once `new_head` has been computed: wall test,
self test, insert, food check (`snake.insert(0, new_head)` happens before the
food comparison, so `generate_food` sees the grown snake). -/
def moveTo (s : GameState) (new_head : Pos) (oracle : Nat → Nat × Nat)
    (fuel : Nat) : Option GameState :=
  if new_head.1 ≤ 0 ∨ new_head.1 ≥ s.game_height ∨
     new_head.2 ≤ 0 ∨ new_head.2 ≥ s.game_width then
    some (endGame s)
  else if new_head ∈ s.snake then
    some (endGame s)
  else if new_head = s.food then
    match generate_food s.game_height s.game_width (new_head :: s.snake)
        oracle fuel with
    | none => none
    | some f =>
      some { s with snake := new_head :: s.snake, score := s.score + 10,
                    food := f, timeout := max 50 (100 - (s.score + 10) / 50) }
  else
    some { s with snake := (new_head :: s.snake).dropLast }

/-- `update_snake` — one simulation tick.  `none` models the `IndexError` on
an empty snake (unreachable from real states) or an unfinished food search. -/
def update_snake (s : GameState) (oracle : Nat → Nat × Nat) (fuel : Nat) :
    Option GameState :=
  if s.game_over then some s
  else
    match s.snake with
    | [] => none
    | (head_y, head_x) :: _ =>
      moveTo s (head_y + s.direction.value.1, head_x + s.direction.value.2)
        oracle fuel

/-- `SnakeGame.__init__` for a terminal of `height × width` characters:
`game_height = height - 4`, `game_width = width - 2`, scores zero, then
`reset_game`; `stdscr.timeout(100)`. -/
def initGame (height width : Int) (oracle : Nat → Nat × Nat) (fuel : Nat) :
    Option GameState :=
  reset_game
    { snake := [], direction := Direction.RIGHT, food := (0, 0), score := 0,
      high_score := 0, game_over := false, game_height := height - 4,
      game_width := width - 2, timeout := 100 }
    oracle fuel

/-- `n` consecutive `update_snake` calls with a fixed entropy stream. -/
def ticks (s : GameState) (oracle : Nat → Nat × Nat) (fuel : Nat) :
    Nat → Option GameState
  | 0 => some s
  | n + 1 =>
    match update_snake s oracle fuel with
    | none => none
    | some s2 => ticks s2 oracle fuel n

/-- One engine operation: a `handle_input` call (any key, any entropy) or an
`update_snake` tick. -/
inductive Step : GameState → GameState → Prop
  | input {s s2 : GameState} (key : Int) (oracle : Nat → Nat × Nat)
      (fuel : Nat) (b : Bool) :
      handle_input s key oracle fuel = some (b, s2) → Step s s2
  | tick {s s2 : GameState} (oracle : Nat → Nat × Nat) (fuel : Nat) :
      update_snake s oracle fuel = some s2 → Step s s2

/-- States reachable from a fresh `SnakeGame` by input handling and ticks. -/
inductive Reachable : GameState → Prop
  | init (height width : Int) (oracle : Nat → Nat × Nat) (fuel : Nat)
      (s : GameState) : initGame height width oracle fuel = some s → Reachable s
  | step (s s2 : GameState) : Reachable s → Step s s2 → Reachable s2

/-- The movement direction a key requests, if it is a movement key
(the arrow / WASD branches of `handle_input`). -/
def keyDirection (key : Int) : Option Direction :=
  if key = KEY_UP ∨ key = 119 ∨ key = 87 then some Direction.UP
  else if key = KEY_DOWN ∨ key = 115 ∨ key = 83 then some Direction.DOWN
  else if key = KEY_LEFT ∨ key = 97 ∨ key = 65 then some Direction.LEFT
  else if key = KEY_RIGHT ∨ key = 100 ∨ key = 68 then some Direction.RIGHT
  else none

/-- A cell the wall-collision test of `update_snake` does not kill:
strictly inside the lethal boundary. -/
def nonWallCell (s : GameState) (p : Pos) : Prop :=
  0 < p.1 ∧ p.1 < s.game_height ∧ 0 < p.2 ∧ p.2 < s.game_width

/-- Entropy stream that repeats one raw pair. -/
def constPairs (a b : Nat) : Nat → Nat × Nat :=
  fun _ => (a, b)

/-- A fresh game on a 24×44-character terminal whose food sampling drew the
raw pair `(9, 21)`: grid `20 × 42`, snake centered at row 10, food `(10, 22)`
one cell ahead of the head. -/
def initState2444 : GameState :=
  { snake := [(10, 21), (10, 20), (10, 19)], direction := Direction.RIGHT,
    food := (10, 22), score := 0, high_score := 0, game_over := false,
    game_height := 20, game_width := 42, timeout := 100 }

/-- The terminal-surface state `initGame 24 44` starts from, before
`reset_game` runs. -/
def preInit2444 : GameState :=
  { snake := [], direction := Direction.RIGHT, food := (0, 0), score := 0,
    high_score := 0, game_over := false, game_height := 20, game_width := 42,
    timeout := 100 }

/-- `initState2444` after one tick: the head ate the food at `(10, 22)` and
the next sample (raw pair `(9, 22)`) placed food at `(10, 23)`. -/
def eatState2444 : GameState :=
  { snake := [(10, 22), (10, 21), (10, 20), (10, 19)],
    direction := Direction.RIGHT, food := (10, 23), score := 10,
    high_score := 0, game_over := false, game_height := 20, game_width := 42,
    timeout := 100 }

/-- A finished game (used to exercise the `game_over` no-op path). -/
def overState2444 : GameState :=
  { initState2444 with game_over := true, high_score := 50 }

/-- A state about to move onto the inner ring: grid `10 × 10`, head at
`(8, 5)` moving `DOWN`, so the tick computes `new_head = (9, 5)` with
`9 = game_height - 1`. -/
def innerRingState : GameState :=
  { snake := [(8, 5), (8, 4), (8, 3)], direction := Direction.DOWN,
    food := (2, 2), score := 0, high_score := 0, game_over := false,
    game_height := 10, game_width := 10, timeout := 100 }

/-- A state about to hit the top wall: head at `(1, 5)` moving `UP`, so the
tick computes `new_head = (0, 5)`. -/
def topWallState : GameState :=
  { snake := [(1, 5), (1, 4), (1, 3)], direction := Direction.UP,
    food := (2, 2), score := 30, high_score := 20, game_over := false,
    game_height := 10, game_width := 10, timeout := 100 }

/-- A full concrete play: on a 24×44 terminal, eat five food items placed in
a row ahead of the snake (score 50, which drops the curses timeout to 99),
run into the right wall, restart with the `r` key, then tick once.  The
final state has `score = 0` but still `timeout = 99`. -/
def staleTimeoutRun : Option GameState :=
  (initGame 24 44 (constPairs 9 21) 1).bind fun s0 =>
  (update_snake s0 (constPairs 9 22) 1).bind fun s1 =>
  (update_snake s1 (constPairs 9 23) 1).bind fun s2 =>
  (update_snake s2 (constPairs 9 24) 1).bind fun s3 =>
  (update_snake s3 (constPairs 9 25) 1).bind fun s4 =>
  (update_snake s4 (constPairs 0 0) 1).bind fun s5 =>
  (ticks s5 (constPairs 0 0) 1 16).bind fun s6 =>
  (handle_input s6 114 (constPairs 0 0) 1).bind fun bs =>
  update_snake bs.2 (constPairs 0 0) 1

/-- `generate_food` returns a cell off the snake and strictly inside the
lethal boundary (rows `1 .. gh-1`, columns `1 .. gw-1`). -/
theorem genFoodAux_sound (gh gw : Int) (snake : List Pos)
    (oracle : Nat → Nat × Nat) :
    ∀ (fuel i : Nat) (p : Pos), genFoodAux gh gw snake oracle i fuel = some p →
      p ∉ snake ∧ 0 < p.1 ∧ p.1 < gh ∧ 0 < p.2 ∧ p.2 < gw := by
  intro fuel
  induction fuel with
  | zero => intro i p h; simp [genFoodAux] at h
  | succ n ih =>
    intro i p h
    unfold genFoodAux at h
    split_ifs at h with hdim hmem
    · exact ih (i + 1) p h
    · injection h with hp
      subst hp
      push_neg at hdim
      refine ⟨hmem, ?_, ?_, ?_, ?_⟩ <;>
        · simp only [foodCandidate, randint]
          have h1 := Nat.mod_lt (oracle i).1 (y := (gh - 1 - 1 + 1).toNat)
            (by omega)
          have h2 := Nat.mod_lt (oracle i).2 (y := (gw - 1 - 1 + 1).toNat)
            (by omega)
          omega

/-- `generate_food` postcondition, at entropy index 0. -/
theorem generate_food_sound (gh gw : Int) (snake : List Pos)
    (oracle : Nat → Nat × Nat) (fuel : Nat) (p : Pos)
    (h : generate_food gh gw snake oracle fuel = some p) :
    p ∉ snake ∧ 0 < p.1 ∧ p.1 < gh ∧ 0 < p.2 ∧ p.2 < gw :=
  genFoodAux_sound gh gw snake oracle fuel 0 p h

/-- The high-score update written with `if` in the code equals `max`. -/
theorem ite_lt_max (a b : Nat) : (if a < b then b else a) = max a b := by
  rcases Nat.lt_or_ge a b with h | h
  · rw [if_pos h, Nat.max_eq_right (Nat.le_of_lt h)]
  · rw [if_neg (Nat.not_lt.2 h), Nat.max_eq_left h]

/-- On a live state with a nonempty snake, a tick is `moveTo` applied to the
head plus the direction delta. -/
theorem update_snake_cons (s : GameState) (oracle : Nat → Nat × Nat)
    (fuel : Nat) (hy hx : Int) (rest : List Pos)
    (hover : s.game_over = false) (hsnake : s.snake = (hy, hx) :: rest) :
    update_snake s oracle fuel =
      moveTo s (hy + s.direction.value.1, hx + s.direction.value.2)
        oracle fuel := by
  unfold update_snake
  rw [hsnake, hover]
  simp

/-- `nextHead` on a nonempty snake. -/
theorem nextHead_cons (s : GameState) (hy hx : Int) (rest : List Pos)
    (hsnake : s.snake = (hy, hx) :: rest) :
    nextHead s = (hy + s.direction.value.1, hx + s.direction.value.2) := by
  simp [nextHead, hsnake]

/-- C1 (amended): on a live state, when `new_head = head + delta(direction)`
has row ≤ 0 or row ≥ game_height or column ≤ 0 or column ≥ game_width —
the lethal test the code actually performs, with `(game_height, game_width)`
the stored grid bounds — the tick sets `game_over`, raises `high_score` to
`max high_score score`, and leaves snake, food, score, direction, bounds and
timeout untouched.  The claim's condition `row ≥ height - 1 ∨ col ≥
width - 1` is off by one against these bounds; see the counterexample. -/
theorem update_snake_wall_collision (s : GameState)
    (oracle : Nat → Nat × Nat) (fuel : Nat) (hy hx : Int) (rest : List Pos)
    (hover : s.game_over = false) (hsnake : s.snake = (hy, hx) :: rest)
    (hwall : (nextHead s).1 ≤ 0 ∨ (nextHead s).1 ≥ s.game_height ∨
             (nextHead s).2 ≤ 0 ∨ (nextHead s).2 ≥ s.game_width) :
    update_snake s oracle fuel =
      some { s with game_over := true,
                    high_score := max s.high_score s.score } := by
  rw [update_snake_cons s oracle fuel hy hx rest hover hsnake]
  rw [nextHead_cons s hy hx rest hsnake] at hwall
  unfold moveTo
  rw [if_pos hwall]
  unfold endGame
  rw [ite_lt_max]

/-- Witness for C1's amended theorem: head `(1, 5)` moving `UP` computes
`new_head = (0, 5)`, row ≤ 0, so the tick ends the game and lifts
`high_score` from 20 to 30. -/
theorem update_snake_wall_collision_witness :
    update_snake topWallState (constPairs 0 0) 1 =
      some { topWallState with game_over := true,
                               high_score := max topWallState.high_score
                                               topWallState.score } :=
  update_snake_wall_collision topWallState (constPairs 0 0) 1 1 5
    [(1, 4), (1, 3)] rfl rfl (by decide)

/-- C1 (counterexample): on a 10 × 10 grid with head `(8, 5)` moving `DOWN`,
`new_head = (9, 5)` satisfies the claim's wall condition `row ≥ height - 1`
(9 ≥ 10 - 1), yet the tick does not set `is_over`: the code only kills at
`row ≥ game_height`, so row `game_height - 1` is playable floor. -/
theorem wall_inner_ring_counterexample :
    innerRingState.game_over = false ∧
    nextHead innerRingState = (9, 5) ∧
    (9 : Int) ≥ innerRingState.game_height - 1 ∧
    (update_snake innerRingState (constPairs 0 0) 1).map GameState.game_over =
      some false := by
  decide

/-- C3: a tick from a live state that stays live grows the snake by exactly
one segment and the score by exactly 10 when the new head lands on the food,
and preserves both otherwise. -/
theorem update_snake_growth (s : GameState) (oracle : Nat → Nat × Nat)
    (fuel : Nat) (s2 : GameState) (hy hx : Int) (rest : List Pos)
    (hover : s.game_over = false) (hsnake : s.snake = (hy, hx) :: rest)
    (h : update_snake s oracle fuel = some s2)
    (halive : s2.game_over = false) :
    (nextHead s = s.food →
        s2.snake.length = s.snake.length + 1 ∧ s2.score = s.score + 10) ∧
    (nextHead s ≠ s.food →
        s2.snake.length = s.snake.length ∧ s2.score = s.score) := by
  rw [update_snake_cons s oracle fuel hy hx rest hover hsnake] at h
  have hnh := nextHead_cons s hy hx rest hsnake
  unfold moveTo at h
  split_ifs at h with hw hself hfood
  · injection h with h2; subst h2; exact absurd halive (by simp [endGame])
  · injection h with h2; subst h2; exact absurd halive (by simp [endGame])
  · split at h
    · cases h
    · rename_i f hf
      injection h with h2
      subst h2
      constructor
      · intro _; simp [hsnake]
      · intro hne; rw [hnh] at hne; exact absurd hfood hne
  · injection h with h2
    subst h2
    constructor
    · intro heq; rw [hnh] at heq; exact absurd heq hfood
    · intro _
      constructor
      · simp [List.length_dropLast, hsnake]
      · rfl

/-- Witness for C3: the fresh 24×44 game eats the food one cell ahead,
going from 3 segments and score 0 to 4 segments and score 10. -/
theorem update_snake_growth_witness :
    (nextHead initState2444 = initState2444.food →
        eatState2444.snake.length = initState2444.snake.length + 1 ∧
        eatState2444.score = initState2444.score + 10) ∧
    (nextHead initState2444 ≠ initState2444.food →
        eatState2444.snake.length = initState2444.snake.length ∧
        eatState2444.score = initState2444.score) :=
  update_snake_growth initState2444 (constPairs 9 22) 1 eatState2444 10 21
    [(10, 20), (10, 19)] rfl rfl rfl rfl

/-- C4: on a live state, a movement key whose direction is the exact 180°
reversal of the current direction is rejected (state returned unchanged),
and any other movement key becomes the new direction; the continue flag
stays `True` either way. -/
theorem handle_input_reversal (s : GameState) (key : Int)
    (oracle : Nat → Nat × Nat) (fuel : Nat) (d : Direction)
    (hover : s.game_over = false) (hkey : keyDirection key = some d) :
    handle_input s key oracle fuel =
      some (true, if s.direction = d.opposite then s
                  else { s with direction := d }) := by
  unfold keyDirection at hkey
  simp only [KEY_UP, KEY_DOWN, KEY_LEFT, KEY_RIGHT] at hkey
  split_ifs at hkey with h1 h2 h3 h4
  · injection hkey with hd; subst hd
    rcases h1 with rfl | rfl | rfl <;>
      simp [handle_input, KEY_UP, KEY_DOWN, KEY_LEFT, KEY_RIGHT, hover,
            Direction.opposite, ite_not]
  · injection hkey with hd; subst hd
    rcases h2 with rfl | rfl | rfl <;>
      simp [handle_input, KEY_UP, KEY_DOWN, KEY_LEFT, KEY_RIGHT, hover,
            Direction.opposite, ite_not]
  · injection hkey with hd; subst hd
    rcases h3 with rfl | rfl | rfl <;>
      simp [handle_input, KEY_UP, KEY_DOWN, KEY_LEFT, KEY_RIGHT, hover,
            Direction.opposite, ite_not]
  · injection hkey with hd; subst hd
    rcases h4 with rfl | rfl | rfl <;>
      simp [handle_input, KEY_UP, KEY_DOWN, KEY_LEFT, KEY_RIGHT, hover,
            Direction.opposite, ite_not]

/-- Witness for C4: pressing `a` (LEFT) while moving RIGHT is the exact
reversal, so the state is returned unchanged. -/
theorem handle_input_reversal_witness :
    handle_input initState2444 97 (constPairs 0 0) 1 =
      some (true, if initState2444.direction = Direction.LEFT.opposite
                  then initState2444
                  else { initState2444 with direction := Direction.LEFT }) :=
  handle_input_reversal initState2444 97 (constPairs 0 0) 1 Direction.LEFT
    rfl rfl

/-- C5: whenever the food is set — by `reset_game`, or by the eating branch
of `update_snake` (recognized by the score strictly increasing) — it lands
off the snake and strictly inside the lethal boundary. -/
theorem food_fresh_after_set :
    (∀ (s : GameState) (oracle : Nat → Nat × Nat) (fuel : Nat)
        (s2 : GameState), reset_game s oracle fuel = some s2 →
        s2.food ∉ s2.snake ∧ nonWallCell s2 s2.food) ∧
    (∀ (s : GameState) (oracle : Nat → Nat × Nat) (fuel : Nat)
        (s2 : GameState), s.game_over = false →
        update_snake s oracle fuel = some s2 → s.score < s2.score →
        s2.food ∉ s2.snake ∧ nonWallCell s2 s2.food) := by
  constructor
  · intro s oracle fuel s2 h
    unfold reset_game at h
    split at h
    · cases h
    · rename_i f hf
      injection h with h2
      subst h2
      have := generate_food_sound _ _ _ _ _ _ hf
      simpa [nonWallCell] using this
  · intro s oracle fuel s2 hover h hlt
    unfold update_snake at h
    rw [hover] at h
    simp only [Bool.false_eq_true, if_false] at h
    split at h
    · cases h
    · rename_i head_y head_x rest hsnake
      unfold moveTo at h
      split_ifs at h with hw hself hfood
      · injection h with h2; subst h2; exact absurd hlt (by simp [endGame])
      · injection h with h2; subst h2; exact absurd hlt (by simp [endGame])
      · split at h
        · cases h
        · rename_i f hf
          injection h with h2
          subst h2
          have := generate_food_sound _ _ _ _ _ _ hf
          simpa [nonWallCell] using this
      · injection h with h2; subst h2; exact absurd hlt (by simp)

/-- Witness for C5: the food of the fresh 24×44 game, `(10, 22)`, misses the
snake and sits strictly inside the boundary. -/
theorem food_fresh_after_set_witness :
    initState2444.food ∉ initState2444.snake ∧
    nonWallCell initState2444 initState2444.food :=
  food_fresh_after_set.1 preInit2444 (constPairs 9 21) 1 initState2444 rfl

/-- A finished game makes a single tick the identity. -/
theorem update_snake_frozen (s : GameState) (oracle : Nat → Nat × Nat)
    (fuel : Nat) (h : s.game_over = true) :
    update_snake s oracle fuel = some s := by
  simp [update_snake, h]

/-- C6: once `game_over` is set, any number of further ticks returns the
state itself — snake, direction, food, score, high score, bounds and timeout
all unchanged. -/
theorem ticks_gameover_noop (s : GameState) (oracle : Nat → Nat × Nat)
    (fuel n : Nat) (h : s.game_over = true) :
    ticks s oracle fuel n = some s := by
  induction n with
  | zero => rfl
  | succ n ih => simp [ticks, update_snake_frozen s oracle fuel h, ih]

/-- Witness for C6: three ticks on a finished game change nothing. -/
theorem ticks_gameover_noop_witness :
    ticks overState2444 (constPairs 0 0) 1 3 = some overState2444 :=
  ticks_gameover_noop overState2444 (constPairs 0 0) 1 3 rfl

/-- C8 (amended): the curses timeout is recomputed only by the eating branch
of `update_snake` — after a tick that increases the score it equals
`max(50, 100 - score div 50)` of the new score, any other tick leaves it
unchanged, and `reset_game` never touches it (so a stale value survives a
restart until food is next eaten; see the counterexample). -/
theorem timeout_recomputed_on_eat :
    (∀ (s : GameState) (oracle : Nat → Nat × Nat) (fuel : Nat)
        (s2 : GameState), update_snake s oracle fuel = some s2 →
        s2.timeout = if s.score < s2.score then max 50 (100 - s2.score / 50)
                     else s.timeout) ∧
    (∀ (s : GameState) (oracle : Nat → Nat × Nat) (fuel : Nat)
        (s2 : GameState), reset_game s oracle fuel = some s2 →
        s2.timeout = s.timeout) := by
  constructor
  · intro s oracle fuel s2 h
    unfold update_snake at h
    split_ifs at h with hover
    · injection h with h2; subst h2; simp
    · split at h
      · cases h
      · rename_i head_y head_x rest hsnake
        unfold moveTo at h
        split_ifs at h with hw hself hfood
        · injection h with h2; subst h2; simp [endGame]
        · injection h with h2; subst h2; simp [endGame]
        · split at h
          · cases h
          · rename_i f hf
            injection h with h2
            subst h2
            simp
        · injection h with h2; subst h2; simp
  · intro s oracle fuel s2 h
    unfold reset_game at h
    split at h
    · cases h
    · injection h with h2; subst h2; rfl

/-- C8 (counterexample): the concrete play `staleTimeoutRun` ends one tick
after a restart with `timeout = 99` but `score = 0`, while the claimed
formula `max(50, 100 - score div 50)` gives 100 — the effective interval
does not equal the formula after the first tick after a reset. -/
theorem stale_timeout_counterexample :
    staleTimeoutRun.map
        (fun s => (s.timeout, s.score, max 50 (100 - s.score / 50))) =
      some (99, 0, 100) := by
  decide

/-- Witness for C8's amended theorem: the fresh 24×44 game eats one food;
the score rises to 10 and the timeout is recomputed to
`max(50, 100 - 10 div 50) = 100`. -/
theorem timeout_recomputed_on_eat_witness :
    eatState2444.timeout =
      if initState2444.score < eatState2444.score
      then max 50 (100 - eatState2444.score / 50) else initState2444.timeout :=
  timeout_recomputed_on_eat.1 initState2444 (constPairs 9 22) 1 eatState2444
    rfl

/-- The rejection loop succeeds with fuel `i + 1` as soon as some entropy
index below the fuel bound draws an unoccupied candidate. -/
theorem genFoodAux_hit (gh gw : Int) (snake : List Pos)
    (oracle : Nat → Nat × Nat) (hgh : 2 ≤ gh) (hgw : 2 ≤ gw) :
    ∀ (fuel i : Nat),
      (∃ k, k < fuel ∧ foodCandidate gh gw (oracle (i + k)) ∉ snake) →
      (genFoodAux gh gw snake oracle i fuel).isSome = true := by
  intro fuel
  induction fuel with
  | zero => intro i h; exact absurd h (by simp)
  | succ n ih =>
    intro i h
    unfold genFoodAux
    rw [if_neg (by omega)]
    by_cases hmem : foodCandidate gh gw (oracle i) ∈ snake
    · rw [if_pos hmem]
      rcases h with ⟨k, hk, hfree⟩
      rcases Nat.eq_zero_or_pos k with rfl | hkpos
      · exact absurd (by simpa using hfree) (by simp [hmem])
      · refine ih (i + 1) ⟨k - 1, by omega, ?_⟩
        have : i + 1 + (k - 1) = i + k := by omega
        rw [this]
        exact hfree
    · rw [if_neg hmem]
      rfl

/-- C9: the food search terminates whenever a free cell can be drawn.  Any
sample stream that ever draws a candidate off the snake makes
`generate_food` succeed with fuel covering that draw, and every cell of the
sampled region `[1, gh-1] × [1, gw-1]` — in particular any unoccupied one —
is drawn by an explicit raw entropy pair, so free cells in the region are
reachable by the sampler.  (The loop has no bound: a stream that never draws
a free cell is modelled by exhausted fuel, i.e. nontermination.) -/
theorem generate_food_terminates :
    (∀ (gh gw : Int) (snake : List Pos) (oracle : Nat → Nat × Nat) (i : Nat),
        2 ≤ gh → 2 ≤ gw → foodCandidate gh gw (oracle i) ∉ snake →
        (generate_food gh gw snake oracle (i + 1)).isSome = true) ∧
    (∀ (gh gw : Int) (c : Pos), 0 < c.1 → c.1 < gh → 0 < c.2 → c.2 < gw →
        foodCandidate gh gw ((c.1 - 1).toNat, (c.2 - 1).toNat) = c) := by
  constructor
  · intro gh gw snake oracle i hgh hgw hfree
    exact genFoodAux_hit gh gw snake oracle hgh hgw (i + 1) 0
      ⟨i, by omega, by simpa using hfree⟩
  · intro gh gw c h1 h2 h3 h4
    have e1 : (c.1 - 1).toNat % (gh - 1 - 1 + 1).toNat = (c.1 - 1).toNat :=
      Nat.mod_eq_of_lt (by omega)
    have e2 : (c.2 - 1).toNat % (gw - 1 - 1 + 1).toNat = (c.2 - 1).toNat :=
      Nat.mod_eq_of_lt (by omega)
    simp only [foodCandidate, randint]
    rw [Prod.ext_iff]
    constructor
    · simp only [e1]; omega
    · simp only [e2]; omega

/-- Witness for C9: on an empty snake in a 20 × 42 grid the first draw is
free, so one unit of fuel suffices. -/
theorem generate_food_terminates_witness :
    (generate_food 20 42 [] (constPairs 9 21) (0 + 1)).isSome = true :=
  generate_food_terminates.1 20 42 [] (constPairs 9 21) 0 (by decide)
    (by decide) (by decide)

/-- C10: on a live state, a movement key changes at most the direction —
the continue flag is `True` and snake, food, score, high score, game-over
flag, grid bounds and timeout are returned unchanged. -/
theorem handle_input_move_frame (s : GameState) (key : Int)
    (oracle : Nat → Nat × Nat) (fuel : Nat) (d : Direction)
    (hover : s.game_over = false) (hkey : keyDirection key = some d) :
    (handle_input s key oracle fuel).map
        (fun r => (r.1, r.2.snake, r.2.food, r.2.score, r.2.high_score,
                   r.2.game_over, r.2.game_height, r.2.game_width,
                   r.2.timeout)) =
      some (true, s.snake, s.food, s.score, s.high_score, false,
            s.game_height, s.game_width, s.timeout) := by
  unfold keyDirection at hkey
  simp only [KEY_UP, KEY_DOWN, KEY_LEFT, KEY_RIGHT] at hkey
  split_ifs at hkey with h1 h2 h3 h4
  · injection hkey with hd; subst hd
    rcases h1 with rfl | rfl | rfl <;>
      (simp only [handle_input, KEY_UP, KEY_DOWN, KEY_LEFT, KEY_RIGHT];
       norm_num [hover]; split <;> simp [hover])
  · injection hkey with hd; subst hd
    rcases h2 with rfl | rfl | rfl <;>
      (simp only [handle_input, KEY_UP, KEY_DOWN, KEY_LEFT, KEY_RIGHT];
       norm_num [hover]; split <;> simp [hover])
  · injection hkey with hd; subst hd
    rcases h3 with rfl | rfl | rfl <;>
      (simp only [handle_input, KEY_UP, KEY_DOWN, KEY_LEFT, KEY_RIGHT];
       norm_num [hover]; split <;> simp [hover])
  · injection hkey with hd; subst hd
    rcases h4 with rfl | rfl | rfl <;>
      (simp only [handle_input, KEY_UP, KEY_DOWN, KEY_LEFT, KEY_RIGHT];
       norm_num [hover]; split <;> simp [hover])

/-- Witness for C10: pressing `w` (UP) on the fresh 24×44 game leaves every
field except the direction unchanged. -/
theorem handle_input_move_frame_witness :
    (handle_input initState2444 119 (constPairs 0 0) 1).map
        (fun r => (r.1, r.2.snake, r.2.food, r.2.score, r.2.high_score,
                   r.2.game_over, r.2.game_height, r.2.game_width,
                   r.2.timeout)) =
      some (true, initState2444.snake, initState2444.food,
            initState2444.score, initState2444.high_score, false,
            initState2444.game_height, initState2444.game_width,
            initState2444.timeout) :=
  handle_input_move_frame initState2444 119 (constPairs 0 0) 1 Direction.UP
    rfl rfl

/-- Any successful `handle_input` either leaves snake, game-over flag and
high score untouched, or (restart while `game_over`) is a `reset_game`. -/
theorem handle_input_cases (s : GameState) (key : Int)
    (oracle : Nat → Nat × Nat) (fuel : Nat) (b : Bool) (s2 : GameState)
    (h : handle_input s key oracle fuel = some (b, s2)) :
    (s2.snake = s.snake ∧ s2.game_over = s.game_over ∧
     s2.high_score = s.high_score) ∨
    reset_game s oracle fuel = some s2 := by
  unfold handle_input at h
  split_ifs at h with h1 h2 h3
  · injection h with hp
    injection hp with hb hs
    subst hs
    exact Or.inl ⟨rfl, rfl, rfl⟩
  · split at h
    · cases h
    · rename_i s3 hreset
      injection h with hp
      injection hp with hb hs
      subst hs
      exact Or.inr hreset
  all_goals
    injection h with hp
  all_goals
    injection hp with hb hs
  all_goals
    subst hs
  all_goals
    exact Or.inl ⟨rfl, rfl, rfl⟩

/-- The snake `reset_game` installs has no duplicate positions. -/
theorem reset_game_nodup (s : GameState) (oracle : Nat → Nat × Nat)
    (fuel : Nat) (s2 : GameState) (h : reset_game s oracle fuel = some s2) :
    s2.snake.Nodup := by
  unfold reset_game at h
  split at h
  · cases h
  · injection h with h2
    subst h2
    show (resetSnake s).Nodup
    simp [resetSnake, List.nodup_cons, Prod.ext_iff]
    omega

/-- A tick preserves the no-duplicates invariant: the self-collision test
fires before the new head is inserted, and dropping the tail only shrinks
the list. -/
theorem update_snake_nodup (s : GameState) (oracle : Nat → Nat × Nat)
    (fuel : Nat) (s2 : GameState)
    (hinv : s.game_over = false → s.snake.Nodup)
    (h : update_snake s oracle fuel = some s2) :
    s2.game_over = false → s2.snake.Nodup := by
  unfold update_snake at h
  split_ifs at h with hover
  · injection h with h2; subst h2; intro hh; rw [hover] at hh; cases hh
  · have hnd := hinv (by simpa using hover)
    split at h
    · cases h
    · rename_i head_y head_x rest hsnake
      unfold moveTo at h
      split_ifs at h with hw hself hfood
      · injection h with h2; subst h2; intro hh
        exact absurd hh (by simp [endGame])
      · injection h with h2; subst h2; intro hh
        exact absurd hh (by simp [endGame])
      · split at h
        · cases h
        · rename_i f hf
          injection h with h2
          subst h2
          intro _
          exact List.nodup_cons.2 ⟨hself, hnd⟩
      · injection h with h2
        subst h2
        intro _
        exact (List.nodup_cons.2 ⟨hself, hnd⟩).sublist
          (List.dropLast_sublist _)

/-- A tick never decreases the high score. -/
theorem update_snake_high_mono (s : GameState) (oracle : Nat → Nat × Nat)
    (fuel : Nat) (s2 : GameState) (h : update_snake s oracle fuel = some s2) :
    s.high_score ≤ s2.high_score := by
  unfold update_snake at h
  split_ifs at h with hover
  · injection h with h2; subst h2; exact Nat.le_refl _
  · split at h
    · cases h
    · rename_i head_y head_x rest hsnake
      unfold moveTo at h
      split_ifs at h with hw hself hfood
      · injection h with h2; subst h2
        show s.high_score ≤ (if s.high_score < s.score then s.score
                             else s.high_score)
        split <;> omega
      · injection h with h2; subst h2
        show s.high_score ≤ (if s.high_score < s.score then s.score
                             else s.high_score)
        split <;> omega
      · split at h
        · cases h
        · rename_i f hf
          injection h with h2
          subst h2
          exact Nat.le_refl _
      · injection h with h2; subst h2; exact Nat.le_refl _

/-- No single engine operation decreases the high score. -/
theorem step_high_mono (s s2 : GameState) (hstep : Step s s2) :
    s.high_score ≤ s2.high_score := by
  cases hstep with
  | input key oracle fuel b h =>
    rcases handle_input_cases s key oracle fuel b s2 h with ⟨_, _, hh⟩ | hreset
    · rw [hh]
    · unfold reset_game at hreset
      split at hreset
      · cases hreset
      · injection hreset with h2; subst h2; exact Nat.le_refl _
  | tick oracle fuel h => exact update_snake_high_mono s oracle fuel s2 h

/-- Every engine operation preserves the conditional no-duplicates
invariant. -/
theorem step_nodup (s s2 : GameState) (hstep : Step s s2)
    (hinv : s.game_over = false → s.snake.Nodup) :
    s2.game_over = false → s2.snake.Nodup := by
  cases hstep with
  | input key oracle fuel b h =>
    rcases handle_input_cases s key oracle fuel b s2 h with
      ⟨hsn, hov, _⟩ | hreset
    · intro hh; rw [hsn]; exact hinv (hov ▸ hh)
    · intro _; exact reset_game_nodup s oracle fuel s2 hreset
  | tick oracle fuel h => exact update_snake_nodup s oracle fuel s2 hinv h

/-- The no-duplicates invariant holds in every reachable state. -/
theorem reachable_nodup_aux (s : GameState) (h : Reachable s) :
    s.game_over = false → s.snake.Nodup := by
  induction h with
  | init height width oracle fuel s hs =>
    intro _
    unfold initGame at hs
    exact reset_game_nodup _ oracle fuel s hs
  | step s s2 hr hstep ih => exact step_nodup s s2 hstep ih

/-- C2: in every state reachable from a fresh game by any sequence of input
handling and ticks, the snake has no duplicate positions while the game is
not over. -/
theorem reachable_snake_nodup (s : GameState) (h : Reachable s)
    (hover : s.game_over = false) : s.snake.Nodup :=
  reachable_nodup_aux s h hover

/-- Witness for C2: the fresh 24×44 game is reachable and duplicate-free. -/
theorem reachable_snake_nodup_witness : initState2444.snake.Nodup :=
  reachable_snake_nodup initState2444
    (Reachable.init 24 44 (constPairs 9 21) 1 initState2444 rfl) rfl

/-- C7: the high score never decreases along any sequence of engine
operations, and `reset_game` preserves it exactly — along with the grid
bounds — while reinitializing snake, direction, score and the game-over
flag. -/
theorem high_score_monotone :
    (∀ s s2 : GameState, Relation.ReflTransGen Step s s2 →
        s.high_score ≤ s2.high_score) ∧
    (∀ (s : GameState) (oracle : Nat → Nat × Nat) (fuel : Nat)
        (s2 : GameState), reset_game s oracle fuel = some s2 →
        s2.high_score = s.high_score ∧ s2.score = 0 ∧ s2.game_over = false ∧
        s2.direction = Direction.RIGHT ∧ s2.game_height = s.game_height ∧
        s2.game_width = s.game_width ∧ s2.snake = resetSnake s) := by
  constructor
  · intro s s2 h
    induction h with
    | refl => exact Nat.le_refl _
    | tail hseq hstep ih =>
      exact Nat.le_trans ih (step_high_mono _ _ hstep)
  · intro s oracle fuel s2 h
    unfold reset_game at h
    split at h
    · cases h
    · injection h with h2
      subst h2
      exact ⟨rfl, rfl, rfl, rfl, rfl, rfl, rfl⟩

/-- Witness for C7: one eating tick from the fresh 24×44 game keeps the
high score at least as large. -/
theorem high_score_monotone_witness :
    initState2444.high_score ≤ eatState2444.high_score :=
  high_score_monotone.1 initState2444 eatState2444
    (Relation.ReflTransGen.single (Step.tick (constPairs 9 22) 1 rfl))

end Snake
